import Mathlib

/-!
Shallow embedding of `src/ducktoken.py` (DuckDuckGo email alias generator).

Interactive inputs (`input(...)`) become explicit string arguments; the
network (`requests.get` / `requests.post`) becomes an explicit function from
the request URL (or, for the provisioning loop, the call index) to an
outcome; `print` output and the list of issued requests are returned
explicitly.  `sys.exit(code)` and an exception that no handler catches are
distinct terminal outcomes of a function run.
-/

/-- Python exceptions that the script can raise or meet:
`TypeError` (line 38), `ValueError` (lines 41, 64, 182, 237),
`KeyError` (raised by a `dict` subscript on a missing key, lines 148, 201, 251). -/
inductive PyError : Type where
  | typeError (msg : String)
  | valueError (msg : String)
  | keyError (key : String)
deriving DecidableEq, Repr

/-- Terminal outcome of running one of the script's functions:
a returned value, a `sys.exit(code)`, or an exception that propagates
uncaught out of the function. -/
inductive ExecResult (α : Type) : Type where
  | ok (a : α)
  | exit (code : Nat)
  | uncaught (e : PyError)
deriving DecidableEq, Repr

/-- A parsed JSON value as the script consumes it: a string or an object.
(Other JSON shapes never occur in the claims; subscripting a string raises
`TypeError` just as in Python.) -/
inductive PyVal : Type where
  | str (s : String)
  | dict (entries : List (String × PyVal))

/-- Outcome of one HTTP round trip as seen by the script:
a `requests.exceptions.RequestException` (transport/timeout/non-2xx after
`raise_for_status`), or a successfully parsed JSON body from `.json()`. -/
inductive NetResult : Type where
  | transportError (msg : String)
  | jsonResponse (body : PyVal)

/-- First-match lookup in a JSON object's entry list (Python `dict` access). -/
def lookup_key : List (String × PyVal) → String → Option PyVal
  | [], _ => none
  | (k, v) :: rest, key => if k = key then some v else lookup_key rest key

/-- Python subscript `v[key]`: on a dict, a missing key raises `KeyError`;
on a string, a string index raises `TypeError`. -/
def PyVal.getItem : PyVal → String → Except PyError PyVal
  | .dict d, key =>
      match lookup_key d key with
      | some v => .ok v
      | none => .error (.keyError key)
  | .str _, _ => .error (.typeError "string indices must be integers")

/-- True exactly on `ValueError`, the exception kind named by the
`except ValueError` handlers at lines 149 and 202. -/
def is_value_error : PyError → Bool
  | .valueError _ => true
  | _ => false

/-- Numeric value of a digit list, as `int()` computes it on a digit string. -/
def digits_val (cs : List Char) : Nat :=
  cs.foldl (fun acc c => acc * 10 + (c.toNat - 48)) 0

/-- Python `str.isdigit()` for ASCII input: nonempty and all characters
are decimal digits. -/
def py_isdigit (s : String) : Bool :=
  !s.data.isEmpty && s.data.all Char.isDigit

/-- `int(count)` on a string that passed `isdigit()` (line 40). -/
def py_int_digits (s : String) : Nat :=
  digits_val s.data

/-- Modelled from the spec: "cannot be parsed as an integer" refers to
Python's `int()` on a string, which accepts an optional sign followed by
digits.  (`int()` also strips surrounding whitespace and allows interior
underscores; those inputs are not needed by any claim and are treated as
unparsable here.)  This definition renders the spec's notion and is only
compared against the source's `isdigit`-based check. -/
def py_int_parse (s : String) : Option Int :=
  match s.data with
  | [] => none
  | c :: cs =>
      if c = '-' then
        if cs ≠ [] ∧ cs.all Char.isDigit then some (-(digits_val cs : Int)) else none
      else if c = '+' then
        if cs ≠ [] ∧ cs.all Char.isDigit then some ((digits_val cs : Int)) else none
      else if (c :: cs).all Char.isDigit then some ((digits_val (c :: cs) : Int)) else none

/-- `get_count_of_addresses` (lines 21-43).  The interactive `input()` is the
string argument.  The second component is the list of network requests this
function issues: none (the source makes no network call here). -/
def get_count_of_addresses (count : String) : Except PyError Nat × List String :=
  if py_isdigit count = false then
    (.error (.typeError "Entry must be a number!"), [])
  else if py_int_digits count > 5 ∨ py_int_digits count < 1 then
    (.error (.valueError "Entry be between 1 and 5"), [])
  else
    (.ok (py_int_digits count), [])

/-- Python `needle in s` for a single-character needle: character
membership. -/
def py_contains (s : String) (c : Char) : Bool :=
  s.data.contains c

/-- `get_username` (lines 46-66).  `'@' in duck_username` is character
membership since the needle is a single character.  No network request is
issued (second component). -/
def get_username (duck_username : String) : Except PyError String × List String :=
  if py_contains duck_username '@' then
    (.error (.valueError "Username cannot contain an @ symbol."), [])
  else
    (.ok duck_username, [])

/-- `otp_input.replace(' ', '+')` (line 135): the string with every space
turned into a plus sign.  In the source this value is computed and
immediately discarded (the call's result is never assigned). -/
def py_replace (s : String) : String :=
  String.mk (s.data.map (fun c => if c = ' ' then '+' else c))

/-- The login URL built at line 138 from the OTP exactly as entered and the
username. -/
def login_url (otp_input duck_user : String) : String :=
  "https://quack.duckduckgo.com/api/auth/login?otp=" ++ otp_input
    ++ "&user=" ++ duck_user

/-- `get_token` (lines 106-153).  The interactive OTP is the first argument;
`net` maps a request URL to the round-trip outcome.  Line 135 computes
`otp_input.replace(' ', '+')` but drops the result, so the URL carries the
OTP verbatim.  A `RequestException` is caught and answered with
`sys.exit(1)`; the second `try` reads `response['token']` and its handler
catches only `ValueError`, so a `KeyError` from a missing key propagates
uncaught.  The second component lists the URLs requested, in order. -/
def get_token (otp_input duck_user : String) (net : String → NetResult) :
    ExecResult PyVal × List String :=
  let _otp_replaced := py_replace otp_input
  let url := login_url otp_input duck_user
  match net url with
  | .transportError _msg => (.exit 1, [url])
  | .jsonResponse response =>
      match response.getItem "token" with
      | .ok a_token => (.ok a_token, [url])
      | .error e =>
          if is_value_error e then (.exit 2, [url]) else (.uncaught e, [url])

/-- The dashboard URL requested at line 191. -/
def dashboard_url : String :=
  "https://quack.duckduckgo.com/api/email/dashboard"

/-- `get_bearer_token` (lines 156-206).  `if not a_token` raises a
`ValueError` before any request when the token is empty (the falsy string).
Otherwise the dashboard is fetched; a `RequestException` is `sys.exit(1)`;
the second `try` reads `response['user']['access_token']` and its handler
catches only `ValueError`, so a `KeyError` propagates uncaught.  The second
component lists the URLs requested, in order. -/
def get_bearer_token (a_token : String) (net : String → NetResult) :
    ExecResult PyVal × List String :=
  if a_token = "" then
    (.uncaught (.valueError ("Authentication token " ++ a_token
        ++ " cannot be empty.")), [])
  else
    match net dashboard_url with
    | .transportError _msg => (.exit 1, [dashboard_url])
    | .jsonResponse response =>
        match
          (match response.getItem "user" with
           | .ok user_val => user_val.getItem "access_token"
           | .error e => .error e) with
        | .ok b_token => (.ok b_token, [dashboard_url])
        | .error e =>
            if is_value_error e then (.exit 2, [dashboard_url])
            else (.uncaught e, [dashboard_url])

/-- Python `str()` as the f-string at line 252 applies it to the parsed
`address` field.  Every claim exercises only the string case; a dict
address (which Python would render as its repr) is summarized. -/
def py_str : PyVal → String
  | .str s => s
  | .dict _ => "<dict>"

/-- What one run of `get_email_addresses` leaves behind: the `Email #i:`
lines printed for successful aliases, the error lines printed on a failed
request, the number of POST requests issued, and the terminal outcome. -/
structure ProvisionOutcome : Type where
  emailLines : List String
  errorLines : List String
  requests : Nat
  result : ExecResult Unit
deriving DecidableEq, Repr

/-- The `for i in range(count)` loop body of `get_email_addresses`
(lines 244-255), started at index `i` with `n` iterations left; `net` gives
the outcome of the j-th POST to the addresses endpoint.  Each iteration
issues one request; a `RequestException` prints an error line and exits
with status 1, ending the loop; a missing `address` key raises `KeyError`,
which the `except requests.exceptions.RequestException` clause does not
catch, so it propagates uncaught; otherwise the alias line is printed
immediately and the loop continues. -/
def provision_loop (net : Nat → NetResult) : Nat → Nat → ProvisionOutcome
  | _, 0 => { emailLines := [], errorLines := [], requests := 0, result := .ok () }
  | i, n + 1 =>
      match net i with
      | .transportError msg =>
          { emailLines := [],
            errorLines := ["Error getting email #" ++ toString (i + 1) ++ ": " ++ msg],
            requests := 1,
            result := .exit 1 }
      | .jsonResponse response =>
          match response.getItem "address" with
          | .error e =>
              { emailLines := [], errorLines := [], requests := 1, result := .uncaught e }
          | .ok email =>
              let rest := provision_loop net (i + 1) n
              { emailLines :=
                  ("Email #" ++ toString (i + 1) ++ ": " ++ py_str email ++ "@duck.com")
                    :: rest.emailLines,
                errorLines := rest.errorLines,
                requests := rest.requests + 1,
                result := rest.result }

/-- The client-agent header value (line 18). -/
def UA_STRING : String :=
  "Mozilla/5.0 (Windows NT 10.0; Win64; x64) AppleWebKit/537.36 (KHTML, like Gecko) Chrome/121.0.0.0 Safari/537.36"

/-- The request headers built at lines 239-242. -/
def provision_headers (b_token : String) : List (String × String) :=
  [("User-Agent", UA_STRING), ("Authorization", "Bearer " ++ b_token)]

/-- `get_email_addresses` (lines 209-255).  `count <= 0` raises a
`ValueError` before any request; otherwise the loop above runs `count`
times starting at index 0.  The bearer token only feeds the request
headers, which no claim observes. -/
def get_email_addresses (count : Int) (b_token : String) (net : Nat → NetResult) :
    ProvisionOutcome :=
  if count ≤ 0 then
    { emailLines := [], errorLines := [], requests := 0,
      result := .uncaught (.valueError "Count must be a positive integer.") }
  else
    let _headers := provision_headers b_token
    provision_loop net 0 count.toNat

/-- C1: at a well-formed exchange response lacking the `token` field, the
code does not exit with status 2; `response['token']` raises `KeyError`,
which the `except ValueError` handler at line 149 does not catch, so the
exception propagates uncaught. -/
theorem claim_C1_missing_token_keyerror :
    (get_token "123456" "alice"
        (fun _ => .jsonResponse (.dict [("status", .str "ok")]))).1
      = .uncaught (.keyError "token") := by
  rfl

/-- C2: at the OTP "1234 5678" the value sent in the request URL still
contains the space: line 135 computes the replacement but discards it,
so the URL carries the OTP verbatim even though `py_replace` would have
produced the space-free "1234+5678". -/
theorem claim_C2_otp_space_kept :
    (get_token "1234 5678" "alice"
        (fun _ => .jsonResponse (.dict [("token", .str "tok")]))).2
      = ["https://quack.duckduckgo.com/api/auth/login?otp=1234 5678&user=alice"] ∧
    py_replace "1234 5678" = "1234+5678" ∧
    py_contains
        "https://quack.duckduckgo.com/api/auth/login?otp=1234 5678&user=alice" ' '
      = true := by
  refine ⟨rfl, by decide, by decide⟩

/-- C4: with count = 3 and every alias-creation response
`{"address": "abc123"}`, the provisioner issues exactly three sequential
requests and prints exactly the three lines `Email #i: abc123@duck.com`
for i = 1, 2, 3 in call order, then returns normally. -/
theorem claim_C4_three_aliases :
    get_email_addresses 3 "btok"
        (fun _ => .jsonResponse (.dict [("address", .str "abc123")]))
      = { emailLines := ["Email #1: abc123@duck.com",
                         "Email #2: abc123@duck.com",
                         "Email #3: abc123@duck.com"],
          errorLines := [], requests := 3, result := .ok () } := by
  rfl

/-- C5: whenever the dashboard response parses to a structure whose
`user.access_token` field is the string `s`, `get_bearer_token` returns
exactly `s`. -/
theorem claim_C5_bearer_returns_access_token (a_token : String)
    (net : String → NetResult) (r u : PyVal) (s : String)
    (h1 : a_token ≠ "")
    (h2 : net dashboard_url = .jsonResponse r)
    (h3 : r.getItem "user" = .ok u)
    (h4 : u.getItem "access_token" = .ok (.str s)) :
    (get_bearer_token a_token net).1 = .ok (.str s) := by
  simp [get_bearer_token, h1, h2, h3, h4]

/-- Witness for C5 at a concrete dashboard response. -/
theorem claim_C5_bearer_returns_access_token_witness :
    (get_bearer_token "atok"
        (fun _ => .jsonResponse
          (.dict [("user", .dict [("access_token", .str "bear")])]))).1
      = .ok (.str "bear") :=
  claim_C5_bearer_returns_access_token "atok" _ _ _ "bear"
    (by decide) rfl rfl rfl

/-- C6: with the empty authentication token, `get_bearer_token` raises the
precondition `ValueError` immediately, and its request list is empty, so
the network is never invoked. -/
theorem claim_C6_empty_token_no_network (net : String → NetResult) :
    get_bearer_token "" net
      = (.uncaught (.valueError "Authentication token  cannot be empty."), []) := by
  rfl

/-- C8: an account identifier containing "@" fails with a `ValueError` and
issues no network request; one without "@" is returned unchanged. -/
theorem claim_C8_username_at_sign (s : String) :
    (py_contains s '@' = true →
      get_username s
        = (.error (.valueError "Username cannot contain an @ symbol."), [])) ∧
    (py_contains s '@' = false → get_username s = (.ok s, [])) := by
  constructor <;> intro h <;> simp [get_username, h]

/-- Witness for C8 at the identifiers "al@ice" and "alice". -/
theorem claim_C8_username_at_sign_witness :
    get_username "al@ice"
        = (.error (.valueError "Username cannot contain an @ symbol."), []) ∧
    get_username "alice" = (.ok "alice", []) :=
  ⟨(claim_C8_username_at_sign "al@ice").1 (by decide),
   (claim_C8_username_at_sign "alice").2 (by decide)⟩

/-- A subscript failure is never a `ValueError`: a missing dict key raises
`KeyError` and a string subscript raises `TypeError`, so the
`except ValueError` handlers can never fire on it. -/
theorem getItem_not_value_error (v : PyVal) (key : String) (e : PyError)
    (h : v.getItem key = .error e) : is_value_error e = false := by
  cases v with
  | str s =>
      simp [PyVal.getItem] at h
      subst h
      rfl
  | dict d =>
      simp [PyVal.getItem] at h
      cases hl : lookup_key d key with
      | some w => simp [hl] at h
      | none =>
          simp [hl] at h
          subst h
          rfl

/-- C9: a response dict lacking the expected key makes `get_token` (resp.
`get_bearer_token`) terminate with an uncaught `KeyError`, and the
`sys.exit(2)` malformed-response paths of both functions are unreachable
for every input: their handlers catch `ValueError`, which a dict subscript
never raises. -/
theorem claim_C9_exit2_unreachable (otp user t : String)
    (net net2 : String → NetResult) (d d2 : List (String × PyVal))
    (h1 : net (login_url otp user) = .jsonResponse (.dict d))
    (h2 : lookup_key d "token" = none)
    (h3 : t ≠ "")
    (h4 : net2 dashboard_url = .jsonResponse (.dict d2))
    (h5 : lookup_key d2 "user" = none) :
    (get_token otp user net).1 = .uncaught (.keyError "token") ∧
    (get_bearer_token t net2).1 = .uncaught (.keyError "user") ∧
    (∀ o u n, (get_token o u n).1 ≠ .exit 2) ∧
    (∀ a n, (get_bearer_token a n).1 ≠ .exit 2) := by
  refine ⟨?_, ?_, ?_, ?_⟩
  · simp [get_token, h1, PyVal.getItem, h2, is_value_error]
  · simp [get_bearer_token, h3, h4, PyVal.getItem, h5, is_value_error]
  · intro o u n
    unfold get_token
    cases hn : n (login_url o u) with
    | transportError msg => simp [hn]
    | jsonResponse r =>
        cases hg : r.getItem "token" with
        | ok v => simp [hn, hg]
        | error e => simp [hn, hg, getItem_not_value_error r "token" e hg]
  · intro a n
    unfold get_bearer_token
    by_cases ha : a = ""
    · simp [ha]
    · rw [if_neg ha]
      cases hn : n dashboard_url with
      | transportError msg => simp [hn]
      | jsonResponse r =>
          cases hg : r.getItem "user" with
          | error e => simp [hn, hg, getItem_not_value_error r "user" e hg]
          | ok w =>
              cases hg2 : w.getItem "access_token" with
              | ok v => simp [hn, hg, hg2]
              | error e =>
                  simp [hn, hg, hg2, getItem_not_value_error w "access_token" e hg2]

/-- Witness for C9 at concrete empty response dicts. -/
theorem claim_C9_exit2_unreachable_witness :
    (get_token "111" "bob" (fun _ => .jsonResponse (.dict []))).1
        = .uncaught (.keyError "token") ∧
    (get_bearer_token "tok" (fun _ => .jsonResponse (.dict []))).1
        = .uncaught (.keyError "user") ∧
    (get_token "111" "bob" (fun _ => .jsonResponse (.dict []))).1 ≠ .exit 2 := by
  have h := claim_C9_exit2_unreachable "111" "bob" "tok"
    (fun _ => .jsonResponse (.dict [])) (fun _ => .jsonResponse (.dict []))
    [] [] rfl rfl (by decide) rfl rfl
  exact ⟨h.1, h.2.1, h.2.2.1 "111" "bob" _⟩

/-- C10: the out-of-range `ValueError` is reachable only for digit strings;
every non-digit input (signed numerals such as "-2" and "+3" included) is
answered with the non-numeric `TypeError`; and on digit strings a value
below 1 can only be the value 0. -/
theorem claim_C10_out_of_range_only_digits (s : String) :
    ((get_count_of_addresses s).1
        = .error (.valueError "Entry be between 1 and 5") → py_isdigit s = true) ∧
    (py_isdigit s = false →
      (get_count_of_addresses s).1 = .error (.typeError "Entry must be a number!")) ∧
    (py_isdigit s = true → py_int_digits s < 1 → py_int_digits s = 0) := by
  refine ⟨?_, ?_, ?_⟩
  · intro h
    by_cases hd : py_isdigit s = true
    · exact hd
    · rw [Bool.not_eq_true] at hd
      simp [get_count_of_addresses, hd] at h
  · intro h
    simp [get_count_of_addresses, h]
  · intro _ h
    omega

/-- Witness for C10 at the signed numerals "-2" and "+3". -/
theorem claim_C10_out_of_range_only_digits_witness :
    (get_count_of_addresses "-2").1 = .error (.typeError "Entry must be a number!") ∧
    (get_count_of_addresses "+3").1 = .error (.typeError "Entry must be a number!") :=
  ⟨(claim_C10_out_of_range_only_digits "-2").2.1 (by decide),
   (claim_C10_out_of_range_only_digits "+3").2.1 (by decide)⟩

/-- Every digit string is a string `int()` parses, and to the same value
the collector computes. -/
theorem py_int_parse_of_isdigit (s : String) (h : py_isdigit s = true) :
    py_int_parse s = some ((py_int_digits s : Int)) := by
  unfold py_isdigit at h
  unfold py_int_parse py_int_digits
  cases hd : s.data with
  | nil => rw [hd] at h; simp at h
  | cons c cs =>
      rw [hd] at h
      simp [List.all_cons] at h
      obtain ⟨hc, hall⟩ := h
      have hcm : ¬ c = '-' := fun he => absurd hc (by rw [he]; decide)
      have hcp : ¬ c = '+' := fun he => absurd hc (by rw [he]; decide)
      simp [hcm, hcp, List.all_cons, hc]
      exact hall

/-- C7 counterexample: the input "-2" is parsed by `int()` to -2, a value
outside [1,5], yet the collector answers with the non-numeric `TypeError`
and not with any out-of-range `ValueError` — refuting the claim's clause
"an out-of-range error if the parsed value lies outside [1,5]". -/
theorem claim_C7_count_validation_cex :
    py_int_parse "-2" = some (-2) ∧
    ((-2 : Int) < 1 ∨ (-2 : Int) > 5) ∧
    (get_count_of_addresses "-2").1 = .error (.typeError "Entry must be a number!") ∧
    (match (get_count_of_addresses "-2").1 with
     | .error e => is_value_error e
     | .ok _ => false) = false := by
  refine ⟨by decide, by decide, rfl, rfl⟩

/-- C7 (amended): the collector raises the non-numeric `TypeError` for
every non-digit input — parsable signed numerals such as "+3" included —
and in particular for every input `int()` cannot parse; it raises the
out-of-range `ValueError` exactly for digit strings whose value lies
outside [1,5]; it returns `n` exactly when the input is a digit string
parsing to n ∈ [1,5]; and no branch issues a network request. -/
theorem claim_C7_count_validation (s : String) :
    (py_isdigit s = false →
      (get_count_of_addresses s).1 = .error (.typeError "Entry must be a number!")) ∧
    (py_int_parse s = none →
      (get_count_of_addresses s).1 = .error (.typeError "Entry must be a number!")) ∧
    ((get_count_of_addresses s).1 = .error (.valueError "Entry be between 1 and 5")
        ↔ (py_isdigit s = true ∧ (py_int_digits s > 5 ∨ py_int_digits s < 1))) ∧
    (∀ n : Nat, (get_count_of_addresses s).1 = .ok n
        ↔ (py_isdigit s = true ∧ 1 ≤ n ∧ n ≤ 5 ∧ py_int_parse s = some ((n : Int)))) ∧
    (get_count_of_addresses s).2 = [] := by
  by_cases hd : py_isdigit s = true
  · have h1 : ¬ (py_isdigit s = false) := by simp [hd]
    by_cases hr : py_int_digits s > 5 ∨ py_int_digits s < 1
    · have hres : get_count_of_addresses s
          = (.error (.valueError "Entry be between 1 and 5"), []) := by
        rw [get_count_of_addresses, if_neg h1, if_pos hr]
      refine ⟨?_, ?_, ?_, ?_, ?_⟩
      · intro h
        exact absurd h (by simp [hd])
      · intro hp
        rw [py_int_parse_of_isdigit s hd] at hp
        exact absurd hp (by simp)
      · rw [hres]
        exact ⟨fun _ => ⟨hd, hr⟩, fun _ => rfl⟩
      · intro n
        rw [hres]
        constructor
        · intro h
          exact absurd h (by simp)
        · rintro ⟨_, hn1, hn5, hp⟩
          rw [py_int_parse_of_isdigit s hd] at hp
          have hdn : py_int_digits s = n := by exact_mod_cast Option.some.inj hp
          have : False := by omega
          exact this.elim
      · rw [hres]
    · have hres : get_count_of_addresses s = (.ok (py_int_digits s), []) := by
        rw [get_count_of_addresses, if_neg h1, if_neg hr]
      push_neg at hr
      refine ⟨?_, ?_, ?_, ?_, ?_⟩
      · intro h
        exact absurd h (by simp [hd])
      · intro hp
        rw [py_int_parse_of_isdigit s hd] at hp
        exact absurd hp (by simp)
      · rw [hres]
        constructor
        · intro h
          exact absurd h (by simp)
        · rintro ⟨_, hcon⟩
          exact absurd hcon (by omega)
      · intro n
        rw [hres]
        constructor
        · intro h
          have hdn : py_int_digits s = n := by simpa using h
          refine ⟨hd, by omega, by omega, ?_⟩
          rw [← hdn]
          exact py_int_parse_of_isdigit s hd
        · rintro ⟨_, hn1, hn5, hp⟩
          rw [py_int_parse_of_isdigit s hd] at hp
          have hdn : py_int_digits s = n := by exact_mod_cast Option.some.inj hp
          simp [hdn]
      · rw [hres]
  · rw [Bool.not_eq_true] at hd
    have hres : get_count_of_addresses s
        = (.error (.typeError "Entry must be a number!"), []) := by
      rw [get_count_of_addresses, if_pos hd]
    refine ⟨?_, ?_, ?_, ?_, ?_⟩
    · intro _
      rw [hres]
    · intro _
      rw [hres]
    · rw [hres]
      constructor
      · intro h
        exact absurd h (by simp)
      · rintro ⟨hcon, _⟩
        exact absurd hcon (by simp [hd])
    · intro n
      rw [hres]
      constructor
      · intro h
        exact absurd h (by simp)
      · rintro ⟨hcon, _⟩
        exact absurd hcon (by simp [hd])
    · rw [hres]

/-- Witness for C7 (amended) at "+3", "abc", "7" and "3". -/
theorem claim_C7_count_validation_witness :
    (get_count_of_addresses "+3").1 = .error (.typeError "Entry must be a number!") ∧
    (get_count_of_addresses "abc").1 = .error (.typeError "Entry must be a number!") ∧
    (get_count_of_addresses "7").1 = .error (.valueError "Entry be between 1 and 5") ∧
    (get_count_of_addresses "3").1 = .ok 3 ∧
    (get_count_of_addresses "3").2 = [] :=
  ⟨(claim_C7_count_validation "+3").1 (by decide),
   (claim_C7_count_validation "abc").2.1 (by decide),
   ((claim_C7_count_validation "7").2.2.1).mpr ⟨by decide, by decide⟩,
   (((claim_C7_count_validation "3").2.2.2.1) 3).mpr
     ⟨by decide, by decide, by decide, by decide⟩,
   (claim_C7_count_validation "3").2.2.2.2⟩

/-- If, starting at index `i` with `n` iterations left, the first `p` calls
succeed with an `address` field and call `p` (zero-based) fails with a
transport error, the loop prints exactly `p` alias lines, issues exactly
`p + 1` requests, and exits with status 1. -/
theorem provision_loop_transport_fail (net : Nat → NetResult) (msg : String)
    (addr : Nat → String) :
    ∀ p n i, p < n →
      (∀ j, j < p →
        net (i + j) = .jsonResponse (.dict [("address", .str (addr (i + j)))])) →
      net (i + p) = .transportError msg →
      (provision_loop net i n).emailLines.length = p ∧
      (provision_loop net i n).requests = p + 1 ∧
      (provision_loop net i n).result = .exit 1 := by
  intro p
  induction p with
  | zero =>
      intro n i hpn hok hfail
      cases n with
      | zero => omega
      | succ m =>
          have h0 : net i = .transportError msg := by simpa using hfail
          simp [provision_loop, h0]
  | succ q ih =>
      intro n i hpn hok hfail
      cases n with
      | zero => omega
      | succ m =>
          have h0 : net i = .jsonResponse (.dict [("address", .str (addr i))]) := by
            simpa using hok 0 (Nat.succ_pos q)
          have hrest := ih m (i + 1) (by omega)
            (fun j hj => by
              have hj1 := hok (j + 1) (by omega)
              have e : i + (j + 1) = i + 1 + j := by omega
              rw [e] at hj1
              exact hj1)
            (by
              have e : i + (q + 1) = i + 1 + q := by omega
              rw [e] at hfail
              exact hfail)
          simp [provision_loop, h0, PyVal.getItem, lookup_key]
          exact ⟨hrest.1, hrest.2.1, hrest.2.2⟩

/-- C3: when the first `p` of the `count` alias-creation requests succeed
and request `p + 1` (one-based: the K-th with K = p + 1) fails with a
transport error, the provisioner has printed exactly `p` alias lines,
has issued exactly `p + 1` requests — so none after the failing one — and
terminates via `sys.exit(1)`. -/
theorem claim_C3_failure_stops_provisioning (count : Int) (p : Nat)
    (msg : String) (addr : Nat → String) (net : Nat → NetResult)
    (b_token : String)
    (hp : (p : Int) < count)
    (hok : ∀ j, j < p →
      net j = .jsonResponse (.dict [("address", .str (addr j))]))
    (hfail : net p = .transportError msg) :
    (get_email_addresses count b_token net).emailLines.length = p ∧
    (get_email_addresses count b_token net).requests = p + 1 ∧
    (get_email_addresses count b_token net).result = .exit 1 := by
  have hcount : ¬ count ≤ 0 := by omega
  have hlt : p < count.toNat := by omega
  rw [get_email_addresses, if_neg hcount]
  exact provision_loop_transport_fail net msg addr p count.toNat 0 hlt
    (fun j hj => by simpa using hok j hj) (by simpa using hfail)

/-- Witness for C3: count = 3 with the second call failing leaves exactly
one alias line, two issued requests (no third call), and exit status 1. -/
theorem claim_C3_failure_stops_provisioning_witness :
    (get_email_addresses 3 "btok"
        (fun j => if j = 1 then .transportError "timeout"
                  else .jsonResponse (.dict [("address", .str "abc123")]))).emailLines.length
        = 1 ∧
    (get_email_addresses 3 "btok"
        (fun j => if j = 1 then .transportError "timeout"
                  else .jsonResponse (.dict [("address", .str "abc123")]))).requests = 2 ∧
    (get_email_addresses 3 "btok"
        (fun j => if j = 1 then .transportError "timeout"
                  else .jsonResponse (.dict [("address", .str "abc123")]))).result
        = .exit 1 :=
  claim_C3_failure_stops_provisioning 3 1 "timeout" (fun _ => "abc123")
    (fun j => if j = 1 then .transportError "timeout"
              else .jsonResponse (.dict [("address", .str "abc123")]))
    "btok" (by decide)
    (fun j hj => by
      have hj0 : j = 0 := Nat.lt_one_iff.mp hj
      rw [hj0]
      rfl)
    rfl
